import Mathlib

/-!
Verification of the retrieval-and-ranking pipeline of the Fluid_orbit_proto
backend (FastAPI shopping-search service).  The Python services under
`backend/app/services` are shallowly embedded: Python strings become `List
Char`, floats become `ℚ` (or `ℝ` where the source uses `math.log10`),
dictionaries become structures with `Option` fields for optional keys, and
each service method becomes a Lean function following the source line by
line.  The simple regular expressions used by the source are embedded as
explicit scanning functions; for each of them greedy matching without
backtracking coincides with Python `re` semantics (justified in comments at
the definition sites).
-/

namespace FluidOrbit

/-- Python strings are modelled as lists of characters. -/
abbrev Str := List Char

/-- Conversion from Lean string literals. -/
def strOf (s : String) : Str := s.data

/-- Python `str.lower()` (ASCII range, which covers every string handled by
the pipeline's keyword tables). -/
def lowerStr (s : Str) : Str := s.map Char.toLower

/-- Python regex `\w` (ASCII): letters, digits, underscore. -/
def isWordChar (c : Char) : Bool := c.isAlphanum || c == '_'

/-- Python regex `\s` (ASCII whitespace characters). -/
def isPySpace (c : Char) : Bool :=
  c == ' ' || c == '\t' || c == '\n' || c == '\r' || c == '\x0b' || c == '\x0c'

/-- Python `needle in hay` on strings: `needle` occurs as a contiguous
substring of `hay` (the empty needle always occurs). -/
def strContains : Str → Str → Bool
  | [], needle => needle.isEmpty
  | c :: t, needle => needle.isPrefixOf (c :: t) || strContains t needle

/-- Python `s.strip()`. -/
def stripWs (s : Str) : Str :=
  ((s.dropWhile isPySpace).reverse.dropWhile isPySpace).reverse

/-- Numeric value of a digit string (most significant digit first). -/
def digitsToNat (s : Str) : ℕ :=
  s.foldl (fun n c => 10 * n + (c.toNat - 48)) 0

/-!  ## `ScrapingService._parse_price` (scraping_service.py:826-847)

`_parse_price` normalises the input with
`str(p).replace('$','').replace(',','').strip()`, then searches for
`(\d+\.\d{2})`; failing that it searches for `(\d+)` and reinterprets
4-or-5-digit integers as cents.  Both regexes are embedded as leftmost
greedy scans; Python backtracking never produces a different match here
because shortening the greedy `\d+` leaves a digit where the pattern next
requires `.` (or the pattern end), which cannot succeed.  -/

/-- `replace('$','').replace(',','')` of the source. -/
def stripDollarComma (s : Str) : Str :=
  s.filter (fun c => !(c == '$' || c == ','))

/-- The whole preprocessing `str(p).replace('$','').replace(',','').strip()`. -/
def cleanPrice (s : Str) : Str := stripWs (stripDollarComma s)

/-- Try to match `\d+\.\d{2}` at the start of `s`: greedy digits, a dot,
then two digits.  Returns the integer part and the two-digit fraction. -/
def matchDecimalAt (s : Str) : Option (ℕ × ℕ) :=
  let ds := s.takeWhile Char.isDigit
  if ds.isEmpty then none
  else
    match s.drop ds.length with
    | '.' :: d1 :: d2 :: _ =>
        if d1.isDigit && d2.isDigit then some (digitsToNat ds, digitsToNat [d1, d2])
        else none
    | _ => none

/-- `re.search(r"(\d+\.\d{2})", s)`: leftmost match of the pattern. -/
def findDecimal : Str → Option (ℕ × ℕ)
  | [] => none
  | c :: rest =>
    match matchDecimalAt (c :: rest) with
    | some r => some r
    | none => findDecimal rest

/-- `re.search(r"(\d+)", s)`: the first maximal run of digits. -/
def firstToken : Str → Option ℕ
  | [] => none
  | c :: rest =>
    if c.isDigit then some (digitsToNat ((c :: rest).takeWhile Char.isDigit))
    else firstToken rest

/-- `ScrapingService._parse_price` for string inputs.  `float("X.YZ")` is
modelled exactly as the rational X + YZ/100. -/
def parse_price (p : Str) : ℚ :=
  let s := cleanPrice p
  match findDecimal s with
  | some (intPart, frac2) => (intPart : ℚ) + (frac2 : ℚ) / 100
  | none =>
    match firstToken s with
    | some num =>
        if 1000 ≤ num ∧ num < 100000 then (num : ℚ) / 100 else (num : ℚ)
    | none => 0

/-!  ## `ScrapingService._deduplicate` (scraping_service.py:752-760) -/

/-- `re.sub(r'[^\w]', '', title.lower())`: the normalized-title
fingerprint. -/
def normalize_title (t : Str) : Str := (lowerStr t).filter isWordChar

/-- A scraped/cached product dictionary.  Optional dictionary keys are
`Option` fields; `specs_text` models `str(product.get('specs', \x7b\x7d))`,
which is `"\x7b\x7d"` for every product this pipeline creates. -/
structure Product where
  id : Str := []
  title : Str := []
  description : Option Str := none
  price : ℚ := 0
  rating : Option ℚ := none
  review_count : Option ℕ := none
  image_url : Option Str := none
  affiliate_url : Option Str := none
  link : Option Str := none
  url : Option Str := none
  brand : Option Str := none
  source : Str := []
  category : Option Str := none
  vector_score : Option ℚ := none
  specs_text : Str := strOf "\x7b\x7d"
  deriving DecidableEq

/-- The loop body of `_deduplicate`, carrying the `seen` set of
fingerprints. -/
def dedupAux : List Product → List Str → List Product
  | [], _ => []
  | p :: rest, seen =>
    let clean := normalize_title p.title
    if clean ≠ [] ∧ clean ∉ seen then p :: dedupAux rest (clean :: seen)
    else dedupAux rest seen

/-- `ScrapingService._deduplicate`: keeps the first listing for each
nonempty fingerprint, in input order, and drops every later duplicate. -/
def deduplicate (products : List Product) : List Product := dedupAux products []

/-!  ## `ScoringService` (scoring_service.py)  -/

/-- `ParsedIntent` (schemas/query.py). -/
structure ParsedIntent where
  category : Option Str := none
  budget_min : Option ℚ := none
  budget_max : Option ℚ := none
  features : List Str := []
  brand_preferences : List Str := []
  use_case : Option Str := none
  deriving DecidableEq

/-- Python `round(x)`: round half to even (banker's rounding), modelled
exactly on the ordered field. -/
def pyRound {α : Type} [LinearOrderedField α] [FloorRing α] (x : α) : ℤ :=
  let f := ⌊x⌋
  if x - f < 1 / 2 then f
  else if 1 / 2 < x - f then f + 1
  else if 2 ∣ f then f else f + 1

/-- Python `round(x, 1)`. -/
def round1 {α : Type} [LinearOrderedField α] [FloorRing α] (x : α) : α :=
  (pyRound (10 * x) : α) / 10

/-- `ScoringService._median`. -/
def median (values : List ℚ) : ℚ :=
  if values = [] then 0
  else
    let sorted_values := values.insertionSort (· ≤ ·)
    let n := sorted_values.length
    let mid := n / 2
    if n % 2 = 0 then (sorted_values.getD (mid - 1) 0 + sorted_values.getD mid 0) / 2
    else sorted_values.getD mid 0

/-- `ScoringService._calculate_price_score` (scoring_service.py:188-215).
A price of `0` is falsy in Python, hence the `price ≤ 0` guard; a budget
that is `None` or `0` (falsy) or nonpositive falls through to the
median-relative branch. -/
def calculate_price_score (price : ℚ) (budget_max : Option ℚ) (median_price : ℚ) : ℚ :=
  if price ≤ 0 then 50
  else
    let budget_path : ℚ → ℚ := fun b =>
      if b < price then max 0 (100 - (price - b) / b * 100)
      else min 100 (60 + (b - price) / b * 40)
    let median_path : ℚ :=
      if price ≤ median_price then min 100 (70 + (median_price - price) / median_price * 30)
      else max 30 (70 - (price - median_price) / median_price * 40)
    match budget_max with
    | some b => if 0 < b then budget_path b else median_path
    | none => median_path

/-- `ScoringService._calculate_rating_score` (scoring_service.py:217-231). -/
def calculate_rating_score (rating : ℚ) : ℚ :=
  if rating ≤ 0 then 50
  else if 4 ≤ rating then 70 + (rating - 4) * 30
  else if 3 ≤ rating then 50 + (rating - 3) * 20
  else max 0 (rating * 50 / 3)

/-- `ScoringService._calculate_review_score` (scoring_service.py:233-249).
`math.log10` is modelled by `Real.logb 10`. -/
noncomputable def calculate_review_score (review_count max_reviews : ℕ) : ℝ :=
  if review_count = 0 then 30
  else
    let log_count := Real.logb 10 (review_count + 1)
    let log_max := if 0 < max_reviews then Real.logb 10 (max_reviews + 1) else 1
    min 100 (log_count / log_max * 100)

/-- The text `f"{title} {description} {str(specs)}".lower()` scanned by the
spec-match score. -/
def productSpecText (p : Product) : Str :=
  lowerStr (p.title ++ [' '] ++ p.description.getD [] ++ [' '] ++ p.specs_text)

/-- `ScoringService._calculate_spec_match_score` (scoring_service.py:251-289). -/
def calculate_spec_match_score (p : Product) (intent : ParsedIntent) : ℚ :=
  if intent.features = [] ∧ intent.brand_preferences = [] then 70
  else
    let total_requirements := intent.features.length + intent.brand_preferences.length
    if total_requirements = 0 then 70
    else
      let product_text := productSpecText p
      let product_brand := lowerStr (p.brand.getD [])
      let feature_matches := intent.features.countP
        (fun f => strContains product_text (lowerStr f))
      let brand_matches := intent.brand_preferences.countP
        (fun b => strContains product_brand (lowerStr b) || strContains product_text (lowerStr b))
      let match_count := feature_matches + brand_matches
      50 + ((match_count : ℚ) / (total_requirements : ℚ)) * 50

/-- The per-product score dictionary built by
`ScoringService._calculate_scores` (scoring_service.py:140-186). -/
structure ScoreBreakdown where
  price_score : ℚ
  rating_score : ℚ
  review_volume_score : ℝ
  spec_match_score : ℚ
  final_score : ℝ

/-- `ScoringService._calculate_scores`: weights price 0.30, rating 0.25,
review volume 0.15, spec match 0.30; the final score is computed from the
unrounded components and every entry of the dictionary is `round(·, 1)`. -/
noncomputable def calculate_scores (p : Product) (intent : ParsedIntent)
    (median_price : ℚ) (max_reviews : ℕ) : ScoreBreakdown :=
  let price_score := calculate_price_score p.price intent.budget_max median_price
  let rating_score := calculate_rating_score (p.rating.getD 0)
  let review_score := calculate_review_score (p.review_count.getD 0) max_reviews
  let spec_score := calculate_spec_match_score p intent
  let final_score : ℝ :=
    (price_score : ℝ) * (30 / 100) + (rating_score : ℝ) * (25 / 100) +
      review_score * (15 / 100) + (spec_score : ℝ) * (30 / 100)
  { price_score := round1 price_score
    rating_score := round1 rating_score
    review_volume_score := round1 review_score
    spec_match_score := round1 spec_score
    final_score := round1 final_score }

/-- The first truthy value of a chain `a or b` on optional strings (an
empty string is falsy in Python). -/
def pyOrStr (a b : Option Str) : Option Str :=
  match a with
  | some s => if s = [] then b else some s
  | none => b

/-- `product.get("affiliate_url") or product.get("link") or product.get("url")`. -/
def productLink (p : Product) : Option Str :=
  pyOrStr p.affiliate_url (pyOrStr p.link p.url)

/-- The valid-link test of `ScoringService._filter_products` (lines 82-84):
the link is a nonempty string, nonempty after `strip()`, starting with
`"http"`. -/
def hasValidLink (p : Product) : Bool :=
  match productLink p with
  | none => false
  | some l => !l.isEmpty && !(stripWs l).isEmpty && (strOf "http").isPrefixOf l

/-- Gender as used by the scoring filter. -/
inductive Gender where
  | men | women | kids | unisex
  deriving DecidableEq

/-- `ScoringService.GENDER_KEYWORDS`. -/
def gender_keywords (g : Gender) : List Str :=
  match g with
  | .men => [strOf "men\x27s", strOf "mens", strOf "male", strOf "man",
      strOf " men ", strOf "for men", strOf "guys", strOf "him"]
  | .women => [strOf "women\x27s", strOf "womens", strOf "female", strOf "woman",
      strOf " women ", strOf "for women", strOf "ladies", strOf "her", strOf "girls"]
  | .kids => [strOf "kids", strOf "children", strOf "boys", strOf "girls",
      strOf "youth", strOf "toddler", strOf "baby", strOf "infant"]
  | .unisex => [strOf "unisex", strOf "gender neutral", strOf "all genders"]

/-- The gender-extraction loop of `_filter_products` (lines 94-108): the
first feature matching one of the keyword groups decides the gender. -/
def extractUserGender : List Str → Option Gender
  | [] => none
  | f :: rest =>
    let fl := lowerStr f
    if [strOf "men\x27s", strOf "mens", strOf "male", strOf " men"].any
        (fun kw => strContains fl kw) then some .men
    else if [strOf "women\x27s", strOf "womens", strOf "female", strOf " women",
        strOf "ladies"].any (fun kw => strContains fl kw) then some .women
    else if [strOf "kids", strOf "children", strOf "boys", strOf "girls",
        strOf "youth"].any (fun kw => strContains fl kw) then some .kids
    else if [strOf "unisex"].any (fun kw => strContains fl kw) then some .unisex
    else extractUserGender rest

/-- The exclusion keyword list chosen in `_filter_products` (lines 113-122). -/
def excludeKeywordsFor (g : Gender) : List Str :=
  match g with
  | .men => gender_keywords .women ++ gender_keywords .kids
  | .women => gender_keywords .men ++ gender_keywords .kids
  | .kids => []
  | .unisex => []

/-- `f"{product.get('title','')} {product.get('description','')}".lower()`. -/
def productGenderText (p : Product) : Str :=
  lowerStr (p.title ++ [' '] ++ p.description.getD [])

/-- `ScoringService._filter_products` (scoring_service.py:70-138): the
valid-link filter (falling back to the input when it would empty it),
followed by the opposite-gender exclusion filter. -/
def filter_products (products : List Product) (intent : ParsedIntent) : List Product :=
  if products = [] then []
  else
    let products_with_links := products.filter hasValidLink
    let products1 := if products_with_links = [] then products else products_with_links
    match extractUserGender intent.features with
    | none => products1
    | some g =>
      products1.filter (fun p =>
        !((excludeKeywordsFor g).any (fun kw => strContains (productGenderText p) (lowerStr kw))))

/-- The review-count maximum `max((p.get("review_count") or 0 for p in l), default=1)`. -/
def maxReviews (l : List Product) : ℕ :=
  match l.map (fun p => p.review_count.getD 0) with
  | [] => 1
  | xs => xs.foldr max 0

/-- The filtered list with the fallback of `score_products` (lines 46-50):
if filtering removed everything, use the original list. -/
def filteredWithFallback (products : List Product) (intent : ParsedIntent) : List Product :=
  if filter_products products intent = [] then products else filter_products products intent

/-- `prices = [p.get("price", 0) for p in filtered_products if p.get("price")]`:
the truthy (nonzero) prices. -/
def scoreStatsPrices (filtered : List Product) : List ℚ :=
  (filtered.map (·.price)).filter (fun x => ¬x = 0)

/-- `median_price = self._median(prices) if prices else 100`. -/
def scoreMedianPrice (filtered : List Product) : ℚ :=
  if scoreStatsPrices filtered = [] then 100 else median (scoreStatsPrices filtered)

/-- `ScoringService.score_products` (scoring_service.py:36-68): filter, fall
back to the unfiltered list if the filter removed everything, compute the
category statistics, and attach a `ScoreBreakdown` to every kept product. -/
noncomputable def score_products (products : List Product) (intent : ParsedIntent) :
    List (Product × ScoreBreakdown) :=
  if products = [] then []
  else
    let filtered_products := filteredWithFallback products intent
    filtered_products.map (fun p =>
      (p, calculate_scores p intent (scoreMedianPrice filtered_products)
        (maxReviews filtered_products)))

/-!  ## `RAGService` (rag_service.py)  -/

/-- Maximal runs of `\w` characters of a string.  A match of
`\b[a-z]{3,}\b` is exactly a `\w`-run that consists solely of lowercase
letters and has length at least 3 (a letter-run bordered by a digit or
underscore has no word boundary there). -/
def wordRunsAux : Str → Str → List Str
  | cur, [] => if cur = [] then [] else [cur.reverse]
  | cur, c :: rest =>
    if isWordChar c then wordRunsAux (c :: cur) rest
    else if cur = [] then wordRunsAux [] rest
    else cur.reverse :: wordRunsAux [] rest

/-- Maximal `\w`-runs of a string (see `wordRunsAux`). -/
def wordRuns (s : Str) : List Str := wordRunsAux [] s

/-- `re.findall(r'\b[a-z]{3,}\b', query_lower)` as a keyword list. -/
def queryWords (q : Str) : List Str :=
  (wordRuns q).filter (fun r => 3 ≤ r.length ∧ r.all (fun c => 'a' ≤ c ∧ c ≤ 'z'))

/-- `RAGService._filter_by_keywords`' category synonym table (rag_service.py:386-400). -/
def category_synonyms : List (Str × List Str) :=
  [ (strOf "jeans", [strOf "jeans", strOf "denim", strOf "jean", strOf "pants", strOf "trousers"]),
    (strOf "shirt", [strOf "shirt", strOf "tee", strOf "top", strOf "blouse", strOf "polo", strOf "button"]),
    (strOf "t-shirt", [strOf "t-shirt", strOf "tshirt", strOf "tee", strOf "t shirt"]),
    (strOf "dress", [strOf "dress", strOf "gown", strOf "frock", strOf "maxi", strOf "midi", strOf "mini"]),
    (strOf "shoes", [strOf "shoes", strOf "sneakers", strOf "boots", strOf "heels", strOf "sandals", strOf "footwear"]),
    (strOf "jacket", [strOf "jacket", strOf "coat", strOf "blazer", strOf "outerwear", strOf "parka"]),
    (strOf "hoodie", [strOf "hoodie", strOf "hoody", strOf "sweatshirt", strOf "pullover"]),
    (strOf "sweater", [strOf "sweater", strOf "jumper", strOf "cardigan", strOf "knitwear"]),
    (strOf "shorts", [strOf "shorts", strOf "short"]),
    (strOf "skirt", [strOf "skirt"]),
    (strOf "pants", [strOf "pants", strOf "trousers", strOf "chinos", strOf "slacks"]),
    (strOf "bag", [strOf "bag", strOf "purse", strOf "handbag", strOf "tote", strOf "backpack"]),
    (strOf "watch", [strOf "watch", strOf "watches", strOf "timepiece"]) ]

/-- The gender-term table of `_filter_by_keywords` (rag_service.py:420-424). -/
def rag_gender_terms : List (Gender × List Str) :=
  [ (.men, [strOf "men", strOf "mens", strOf "men\x27s", strOf "male", strOf "man",
      strOf "boy", strOf "boys"]),
    (.women, [strOf "women", strOf "womens", strOf "women\x27s", strOf "female",
      strOf "woman", strOf "girl", strOf "girls", strOf "ladies"]),
    (.kids, [strOf "kids", strOf "kid", strOf "children", strOf "child",
      strOf "baby", strOf "toddler"]) ]

/-- The accessory blocklist of `_filter_by_keywords` (rag_service.py:455-459). -/
def accessory_terms : List Str :=
  [strOf "sunglasses", strOf "glasses", strOf "belt", strOf "wallet", strOf "jewelry",
   strOf "earring", strOf "necklace", strOf "bracelet", strOf "ring", strOf "hat",
   strOf "cap", strOf "scarf", strOf "gloves", strOf "socks", strOf "tie",
   strOf "bow tie", strOf "cufflinks"]

/-- The target keyword set derived from the query and intent
(rag_service.py:402-417).  A Python `set` consulted only through `any(kw in
…)` is modelled as a list with possible duplicates. -/
def targetKeywords (query_lower : Str) (intent : ParsedIntent) : List Str :=
  let from_synonyms :=
    ((category_synonyms.filter
        (fun cs => cs.2.any (fun syn => strContains query_lower syn))).map (·.2)).flatten
  let with_cat :=
    match intent.category with
    | some c =>
      let cat_lower := lowerStr c
      let extra :=
        match (category_synonyms.filter (fun cs => cs.1 = cat_lower)).head? with
        | some cs => cs.2
        | none => []
      from_synonyms ++ [cat_lower] ++ extra
    | none => from_synonyms
  if with_cat = [] then queryWords query_lower else with_cat

/-- The target gender derived from the query (rag_service.py:426-430); the
first table entry with a term occurring in the query wins. -/
def targetGender (query_lower : Str) : Option Gender :=
  (rag_gender_terms.find? (fun gt => gt.2.any (fun t => strContains query_lower t))).map (·.1)

/-- The per-product keep test of the `_filter_by_keywords` loop
(rag_service.py:433-466). -/
def keyword_keep (query_lower : Str) (intent : ParsedIntent) (p : Product) : Bool :=
  let title_lower := lowerStr p.title
  let combined := title_lower ++ [' '] ++ lowerStr (p.description.getD [])
  let target_keywords := targetKeywords query_lower intent
  let matches_category :=
    if target_keywords.isEmpty then true
    else target_keywords.any (fun kw => strContains combined kw)
  let matches_gender :=
    match targetGender query_lower with
    | none => true
    | some g =>
      let product_genders :=
        (rag_gender_terms.filter (fun gt => gt.2.any (fun t => strContains combined t))).map (·.1)
      if product_genders.isEmpty then true else product_genders.contains g
  let is_accessory := accessory_terms.any (fun acc => strContains title_lower acc)
  let accessory_query :=
    [strOf "accessories", strOf "sunglasses", strOf "jewelry", strOf "belt",
     strOf "wallet"].any (fun acc => strContains query_lower acc)
  if is_accessory && !accessory_query then false
  else matches_category && matches_gender

/-- `RAGService._filter_by_keywords` (rag_service.py:367-473), including
the safety valve: if the filtered set has fewer than 5 members while the
input had more than 5, return the first 30 unfiltered products instead. -/
def filter_by_keywords (query : Str) (products : List Product) (intent : ParsedIntent) :
    List Product :=
  if products = [] then []
  else
    let query_lower := lowerStr query
    let filtered := products.filter (keyword_keep query_lower intent)
    if filtered.length < 5 ∧ 5 < products.length then products.take 30
    else filtered

/-- One similarity-search hit: a cosine score and a stored payload. -/
structure ScoredPoint where
  score : ℚ
  payload : Product
  deriving DecidableEq

/-- The result-conversion loop of `RAGService._search_vector_db`
(rag_service.py:736-744): keep only points whose score meets
`CONFIDENCE_THRESHOLD = 0.7` and attach the score to the payload. -/
def search_vector_db (points : List ScoredPoint) : List Product :=
  points.filterMap (fun r =>
    if (7 : ℚ) / 10 ≤ r.score then some { r.payload with vector_score := some r.score }
    else none)

/-- The five demo earbuds of `RAGService._get_demo_products`
(rag_service.py:869-935); only the fields the pipeline reads are listed. -/
def demoEarbuds : List Product :=
  [ { id := strOf "demo-1", title := strOf "Sony WF-1000XM5 Wireless Earbuds",
      description := some (strOf "Industry-leading noise cancellation with exceptional sound quality"),
      price := 27999 / 100, rating := some (47 / 10), review_count := some 2500,
      brand := some (strOf "Sony"), category := some (strOf "earbuds"), source := strOf "demo",
      image_url := some (strOf "https://placehold.co/400x400?text=Sony+XM5"),
      affiliate_url := some (strOf "https://example.com/sony-xm5") },
    { id := strOf "demo-2", title := strOf "Apple AirPods Pro 2nd Generation",
      description := some (strOf "Adaptive transparency, personalized spatial audio"),
      price := 249, rating := some (48 / 10), review_count := some 15000,
      brand := some (strOf "Apple"), category := some (strOf "earbuds"), source := strOf "demo",
      image_url := some (strOf "https://placehold.co/400x400?text=AirPods+Pro"),
      affiliate_url := some (strOf "https://example.com/airpods-pro") },
    { id := strOf "demo-3", title := strOf "Samsung Galaxy Buds2 Pro",
      description := some (strOf "24-bit Hi-Fi audio, intelligent ANC"),
      price := 18999 / 100, rating := some (45 / 10), review_count := some 3200,
      brand := some (strOf "Samsung"), category := some (strOf "earbuds"), source := strOf "demo",
      image_url := some (strOf "https://placehold.co/400x400?text=Galaxy+Buds"),
      affiliate_url := some (strOf "https://example.com/galaxy-buds") },
    { id := strOf "demo-4", title := strOf "Jabra Elite 85t True Wireless",
      description := some (strOf "Advanced ANC, customizable sound"),
      price := 14999 / 100, rating := some (44 / 10), review_count := some 1800,
      brand := some (strOf "Jabra"), category := some (strOf "earbuds"), source := strOf "demo",
      image_url := some (strOf "https://placehold.co/400x400?text=Jabra+Elite"),
      affiliate_url := some (strOf "https://example.com/jabra-elite") },
    { id := strOf "demo-5", title := strOf "Anker Soundcore Liberty 4",
      description := some (strOf "ACAA 3.0 drivers, heart rate sensor"),
      price := 9999 / 100, rating := some (43 / 10), review_count := some 5600,
      brand := some (strOf "Anker"), category := some (strOf "earbuds"), source := strOf "demo",
      image_url := some (strOf "https://placehold.co/400x400?text=Soundcore"),
      affiliate_url := some (strOf "https://example.com/soundcore") } ]

/-- The two default demo products of `_get_demo_products`
(rag_service.py:936-961); their `category` field copies the intent's
category (defaulting to `"general"`). -/
def demoDefault (intent : ParsedIntent) : List Product :=
  [ { id := strOf "demo-default-1", title := strOf "Popular Product 1",
      description := some (strOf "A highly rated product in this category"),
      price := 14999 / 100, rating := some (45 / 10), review_count := some 1000,
      category := some (intent.category.getD (strOf "general")), source := strOf "demo",
      image_url := some (strOf "https://placehold.co/400x400?text=Product+1"),
      affiliate_url := some (strOf "https://example.com/product-1") },
    { id := strOf "demo-default-2", title := strOf "Popular Product 2",
      description := some (strOf "Another excellent option"),
      price := 9999 / 100, rating := some (43 / 10), review_count := some 800,
      category := some (intent.category.getD (strOf "general")), source := strOf "demo",
      image_url := some (strOf "https://placehold.co/400x400?text=Product+2"),
      affiliate_url := some (strOf "https://example.com/product-2") } ]

/-- `RAGService._get_demo_products` (rag_service.py:866-971): pick the
category's sample list (only `"earbuds"` has one; everything else gets the
default list) and filter by the budget when `intent.budget_max` is truthy. -/
def get_demo_products (intent : ParsedIntent) : List Product :=
  let category := intent.category.getD (strOf "default")
  let base := if category = strOf "earbuds" then demoEarbuds else demoDefault intent
  match intent.budget_max with
  | some b => if b ≠ 0 then base.filter (fun p => p.price ≤ b) else base
  | none => base

/-- The candidate-set construction of `RAGService.search_products`
(rag_service.py:203-252), with the similarity-search result and the scrape
result passed in as values: if the cache yields more than 3 entries use it
(`data_source = "indexed"`); otherwise filter the scraped products and
append the cache hits; if nothing at all was found fall back to the demo
set (`data_source = "demo"`). -/
def search_products_core (vector_results scraped_products : List Product)
    (scrape_source query : Str) (intent : ParsedIntent) : List Product × Str :=
  if 3 < vector_results.length then (vector_results, strOf "indexed")
  else
    let fresh :=
      if scraped_products = [] then [] else filter_by_keywords query scraped_products intent
    let data_source := if scraped_products = [] then strOf "scraped" else scrape_source
    let products := fresh ++ vector_results
    if products = [] then (get_demo_products intent, strOf "demo")
    else (products, data_source)

/-- The response dictionary of `search_products`. -/
structure SearchResult where
  products : List (Product × ScoreBreakdown)
  total_found : ℕ
  data_source : Str

/-- The scoring-and-ranking tail of `RAGService.search_products`
(rag_service.py:254-283): score the candidates, sort by descending rounded
final score (Python's stable `sort(reverse=True)`), and keep the first
`max_results`.  The LLM mini-summary pass only rewrites description texts
and is omitted. -/
noncomputable def search_products_result (vector_results scraped_products : List Product)
    (scrape_source query : Str) (intent : ParsedIntent) (max_results : ℕ) : SearchResult :=
  let core := search_products_core vector_results scraped_products scrape_source query intent
  let scored_products := score_products core.1 intent
  let sorted := scored_products.insertionSort (fun a b => b.2.final_score ≤ a.2.final_score)
  { products := sorted.take max_results
    total_found := sorted.length
    data_source := core.2 }

/-!  ## Scrape orchestration (`ScrapingService`, scraping_service.py)

The `asyncio.gather(*tasks, return_exceptions=True)` fan-outs are embedded
by passing in the list of task outcomes: `Except Unit (List Product)` for a
per-retailer task (a raised exception or a returned listing list) and
`Except Unit (ℕ × Str)` for one fetch (an exception, or a status code and a
body).  Page parsing inside `_scrape_single_store` is a pure function of
the fetched body and is abstracted as an `extract` argument; any exception
it would raise in the source is absorbed by the surrounding
`except: return []` and is modelled by the `Except.error` fetch outcome. -/

/-- Outcome of one per-retailer scrape task. -/
abbrev TaskResult := Except Unit (List Product)

/-- The keys of `FASHION_RETAILERS` in dictionary (insertion) order. -/
def retailer_keys : List Str :=
  [strOf "express", strOf "urban_outfitters", strOf "old_navy", strOf "asos",
   strOf "us_polo", strOf "garage", strOf "banana_factory", strOf "hm",
   strOf "abercrombie", strOf "edikted", strOf "hollister", strOf "altard_state",
   strOf "american_eagle", strOf "macys", strOf "nordstrom", strOf "saks",
   strOf "uniqlo", strOf "saks_off", strOf "reformation", strOf "everlane",
   strOf "jcrew", strOf "madewell", strOf "anthropologie", strOf "eloquii",
   strOf "girlfriend", strOf "lululemon", strOf "aloyoga", strOf "bandit",
   strOf "carbon38", strOf "pistola", strOf "frankie", strOf "aritzia",
   strOf "shopbop", strOf "wolf_badger", strOf "revolve", strOf "farfetch",
   strOf "zara", strOf "gap"]

/-- `ScrapingService._scrape_single_store` (scraping_service.py:528-647):
a raised exception or a non-200 response contributes no listings; a 200
response is parsed by the per-store extraction logic `extract`. -/
def scrape_single_store (extract : Str → List Product)
    (fetch : Except Unit (ℕ × Str)) : List Product :=
  match fetch with
  | .error _ => []
  | .ok (status, body) => if status ≠ 200 then [] else extract body

/-- The result-collection loop shared by `_level1_jina_scrape`
(scraping_service.py:192-196) and `_level2_html_scrape` (lines 521-525):
a task outcome contributes its listings and its source label only when it
is a returned, nonempty list. -/
def collect_tasks (pairs : List (Str × TaskResult)) : List Product × List Str :=
  pairs.foldr
    (fun kr acc =>
      match kr.2 with
      | .ok l => if l = [] then acc else (l ++ acc.1, kr.1 :: acc.2)
      | .error _ => acc)
    ([], [])

/-- `ScrapingService._level1_jina_scrape`: one task per retailer in
`FASHION_RETAILERS.keys()[:10]`, labelled `"jina_" ++ key`. -/
def level1_jina_scrape (results : List TaskResult) : List Product × List Str :=
  collect_tasks (((retailer_keys.take 10).map (fun k => strOf "jina_" ++ k)).zip results)

/-- `ScrapingService._level2_html_scrape`: one task per retailer in
`FASHION_RETAILERS.keys()[10:25]`. -/
def level2_html_scrape (results : List TaskResult) : List Product × List Str :=
  collect_tasks (((retailer_keys.drop 10).take 15).zip results)

/-- The premium-retailer list of `_sort_products` (scraping_service.py:771-774). -/
def premium_retailers : List Str :=
  [strOf "nordstrom", strOf "saks", strOf "farfetch", strOf "revolve",
   strOf "reformation", strOf "madewell", strOf "anthropologie", strOf "aritzia",
   strOf "shopbop", strOf "lululemon"]

/-- `sort_key` of `_sort_products` (scraping_service.py:792-822), before
negation. -/
def sortScore (p : Product) : ℚ :=
  let image_bonus : ℚ :=
    if !(p.image_url.getD []).isEmpty ∧
        !strContains (p.image_url.getD []) (strOf "placehold") then 500 else 0
  let price_bonus : ℚ :=
    if 15 ≤ p.price ∧ p.price ≤ 300 then 100
    else if 10 ≤ p.price ∧ p.price ≤ 500 then 50 else 0
  let rating_bonus : ℚ :=
    match p.rating with
    | some r => if r ≠ 0 then 80 + r * 15 else 0
    | none => 0
  let review_bonus : ℚ :=
    match p.review_count with
    | some c => if c ≠ 0 then min 40 ((c : ℚ) / 100) else 0
    | none => 0
  let premium_bonus : ℚ :=
    if premium_retailers.any (fun kw => strContains (lowerStr p.source) kw) then 150 else 0
  image_bonus + price_bonus + rating_bonus + review_bonus + premium_bonus

/-- `ScrapingService._sort_products` (scraping_service.py:762-824): drop
products with unrealistic prices or garbage titles, then sort stably by
descending `sortScore` (Python sorts ascending by the negated score). -/
def sort_products (products : List Product) : List Product :=
  let valid_products := products.filter (fun p =>
    !(1000 < p.price ∨ p.price < 5) &&
    !(strContains (lowerStr p.title) (strOf "activating this element") ∨
      strContains (lowerStr p.title) (strOf "javascript")))
  valid_products.insertionSort (fun a b => -sortScore a ≤ -sortScore b)

/-- The dictionary returned by `search_and_scrape`; the `"source"` string
`", ".join(set(sources))` (or `"scraped"` when empty) is a function of the
`sources` list, which is kept as-is. -/
structure ScrapeResult where
  products : List Product
  total_found : ℕ
  sources : List Str
  deriving DecidableEq

/-- Processing of one level task's gather outcome in `search_and_scrape`
(scraping_service.py:140-157): an exception contributes nothing, and a
returned tuple contributes its products and sources only when the product
list is nonempty. -/
def levelTaskTuple (r : Except Unit (List Product × List Str)) : List Product × List Str :=
  match r with
  | .error _ => ([], [])
  | .ok (ps, ss) => if ps = [] then ([], []) else (ps, ss)

/-- `ScrapingService.search_and_scrape` (scraping_service.py:116-171):
gather the two level tasks, concatenate their listings, deduplicate by
title fingerprint, and sort. -/
def search_and_scrape (jina_task html_task : Except Unit (List Product × List Str)) :
    ScrapeResult :=
  let jina := levelTaskTuple jina_task
  let html := levelTaskTuple html_task
  let all_products := jina.1 ++ html.1
  let unique_products := sort_products (deduplicate all_products)
  { products := unique_products
    total_found := unique_products.length
    sources := jina.2 ++ html.2 }

/-!  ## `QueryService` (query_service.py)

`parse_intent` lowercases the query and extracts every field with keyword
scans and three `re.search` patterns.  The number pattern
`\d+(?:,\d{3})*(?:\.\d{2})?` is embedded greedily; Python backtracking
cannot produce a different match because after shortening any greedy part
the next required character (`,`-group digit, `.`, `to`, `-` or the pattern
end) is a digit position that cannot match. -/

/-- Greedy `(?:,\d{3})*`: groups of a comma followed by exactly three
digits; returns the collected digits and the remainder. -/
def munchCommaGroups : Str → Str × Str
  | ',' :: a :: b :: c :: rest =>
    if a.isDigit && b.isDigit && c.isDigit then
      let g := munchCommaGroups rest
      (a :: b :: c :: g.1, g.2)
    else ([], ',' :: a :: b :: c :: rest)
  | other => ([], other)

/-- Greedy match of `\d+(?:,\d{3})*(?:\.\d{2})?` at the start of the
string; returns the whole part (commas removed) and the two-digit
fraction (0 when absent), plus the remainder of the string. -/
def matchNumber (t : Str) : Option ((ℕ × ℕ) × Str) :=
  let ds := t.takeWhile Char.isDigit
  if ds.isEmpty then none
  else
    let rest := t.drop ds.length
    let g := munchCommaGroups rest
    let whole := digitsToNat (ds ++ g.1)
    match g.2 with
    | '.' :: a :: b :: r2 =>
      if a.isDigit && b.isDigit then some ((whole, digitsToNat [a, b]), r2)
      else some ((whole, 0), g.2)
    | _ => some ((whole, 0), g.2)

/-- `float(match.replace(',', ''))`: the exact rational value of a matched
number. -/
def numVal (v : ℕ × ℕ) : ℚ := (v.1 : ℚ) + (v.2 : ℚ) / 100

/-- `\s*\$?` followed by the number pattern. -/
def parseAfterKw (t : Str) : Option (ℕ × ℕ) :=
  let t1 := t.dropWhile isPySpace
  let t2 := if t1.head? = some '$' then t1.tail else t1
  (matchNumber t2).map (·.1)

/-- Try the keyword alternation (in order) at the current position; the
alternatives share no prefixes, so at most one can match. -/
def matchKwAt (kws : List Str) (s : Str) : Option (ℕ × ℕ) :=
  kws.findSome? (fun kw => if kw.isPrefixOf s then parseAfterKw (s.drop kw.length) else none)

/-- `re.search` of `(?:kw1|…)\s*\$?(number)`: leftmost position wins. -/
def searchKwNumber (kws : List Str) : Str → Option (ℕ × ℕ)
  | [] => none
  | c :: rest =>
    match matchKwAt kws (c :: rest) with
    | some v => some v
    | none => searchKwNumber kws rest

/-- The alternation of the `under_pattern` (query_service.py:80). -/
def under_keywords : List Str :=
  [strOf "under", strOf "below", strOf "less than", strOf "up to"]

/-- The alternation of the `over_pattern` (query_service.py:86). -/
def over_keywords : List Str :=
  [strOf "over", strOf "above", strOf "more than", strOf "at least"]

/-- Match `\$?(number)\s*(?:to|-)\s*\$?(number)` at the current position. -/
def matchRangeAt (s : Str) : Option ((ℕ × ℕ) × (ℕ × ℕ)) :=
  let s1 := if s.head? = some '$' then s.tail else s
  match matchNumber s1 with
  | none => none
  | some (v1, r1) =>
    let r2 := r1.dropWhile isPySpace
    let r3 :=
      if (strOf "to").isPrefixOf r2 then some (r2.drop 2)
      else if r2.head? = some '-' then some r2.tail
      else none
    match r3 with
    | none => none
    | some r3' =>
      let r4 := r3'.dropWhile isPySpace
      let r5 := if r4.head? = some '$' then r4.tail else r4
      (matchNumber r5).map (fun x => (v1, x.1))

/-- `re.search` of the `range_pattern` (query_service.py:92). -/
def searchRange : Str → Option ((ℕ × ℕ) × (ℕ × ℕ))
  | [] => none
  | c :: rest =>
    match matchRangeAt (c :: rest) with
    | some v => some v
    | none => searchRange rest

/-- `QueryService._extract_budget` (query_service.py:74-98): the under
pattern fills `budget_max`, the over pattern fills `budget_min`, and a
range match overwrites both. -/
def extract_budget (query : Str) : Option ℚ × Option ℚ :=
  let budget_max := (searchKwNumber under_keywords query).map numVal
  let budget_min := (searchKwNumber over_keywords query).map numVal
  match searchRange query with
  | some ab => (some (numVal ab.1), some (numVal ab.2))
  | none => (budget_min, budget_max)

/-- `QueryService.CATEGORY_KEYWORDS` in dictionary order. -/
def category_keyword_table : List (Str × List Str) :=
  [ (strOf "earbuds", [strOf "earbuds", strOf "earphones", strOf "in-ear",
      strOf "wireless earbuds", strOf "tws"]),
    (strOf "headphones", [strOf "headphones", strOf "over-ear", strOf "on-ear",
      strOf "noise cancelling"]),
    (strOf "laptops", [strOf "laptop", strOf "notebook", strOf "macbook", strOf "chromebook"]),
    (strOf "phones", [strOf "phone", strOf "smartphone", strOf "iphone",
      strOf "android", strOf "mobile"]),
    (strOf "tablets", [strOf "tablet", strOf "ipad", strOf "android tablet"]),
    (strOf "monitors", [strOf "monitor", strOf "display", strOf "screen"]),
    (strOf "keyboards", [strOf "keyboard", strOf "mechanical keyboard",
      strOf "gaming keyboard"]),
    (strOf "mice", [strOf "mouse", strOf "gaming mouse", strOf "wireless mouse"]),
    (strOf "cameras", [strOf "camera", strOf "dslr", strOf "mirrorless", strOf "webcam"]),
    (strOf "speakers", [strOf "speaker", strOf "bluetooth speaker", strOf "soundbar"]) ]

/-- `QueryService._extract_category`. -/
def extract_category (q : Str) : Option Str :=
  category_keyword_table.findSome?
    (fun ck => if ck.2.any (fun kw => strContains q kw) then some ck.1 else none)

/-- `QueryService._extract_features`' keyword list. -/
def feature_keyword_table : List Str :=
  [strOf "wireless", strOf "bluetooth", strOf "noise cancelling", strOf "anc",
   strOf "waterproof", strOf "water resistant", strOf "long battery",
   strOf "fast charging", strOf "usb-c", strOf "lightweight", strOf "portable",
   strOf "gaming", strOf "professional", strOf "studio", strOf "premium",
   strOf "budget", strOf "affordable", strOf "high-end", strOf "compact"]

/-- `QueryService._extract_features`. -/
def extract_features (q : Str) : List Str :=
  feature_keyword_table.filter (fun f => strContains q f)

/-- Python `str.capitalize()`. -/
def capitalize (s : Str) : Str :=
  match s with
  | [] => []
  | c :: rest => c.toUpper :: rest.map Char.toLower

/-- `QueryService._extract_brands`' brand list. -/
def known_brands : List Str :=
  [strOf "apple", strOf "sony", strOf "samsung", strOf "bose", strOf "sennheiser",
   strOf "jabra", strOf "anker", strOf "jbl", strOf "beats", strOf "audio-technica",
   strOf "logitech", strOf "razer", strOf "corsair", strOf "dell", strOf "hp",
   strOf "lenovo", strOf "asus", strOf "acer", strOf "microsoft", strOf "google",
   strOf "oneplus"]

/-- `QueryService._extract_brands`. -/
def extract_brands (q : Str) : List Str :=
  (known_brands.filter (fun b => strContains q b)).map capitalize

/-- `QueryService._extract_use_case`'s table in dictionary order. -/
def use_case_table : List (Str × List Str) :=
  [ (strOf "gaming", [strOf "gaming", strOf "games", strOf "esports"]),
    (strOf "work", [strOf "work", strOf "office", strOf "business", strOf "professional"]),
    (strOf "travel", [strOf "travel", strOf "airplane", strOf "commute", strOf "commuting"]),
    (strOf "fitness", [strOf "fitness", strOf "workout", strOf "gym", strOf "running",
      strOf "sports"]),
    (strOf "music", [strOf "music", strOf "audiophile", strOf "hi-fi", strOf "studio"]),
    (strOf "calls", [strOf "calls", strOf "meetings", strOf "video calls", strOf "conference"]) ]

/-- `QueryService._extract_use_case`. -/
def extract_use_case (q : Str) : Option Str :=
  use_case_table.findSome?
    (fun uk => if uk.2.any (fun kw => strContains q kw) then some uk.1 else none)

/-- `QueryService.parse_intent` (query_service.py:34-64).  The
`query_type` keyword argument computed by the source is not a declared
`ParsedIntent` field and is discarded by the pydantic model. -/
def parse_intent (query : Str) : ParsedIntent :=
  let q := lowerStr query
  { category := extract_category q
    budget_min := (extract_budget q).1
    budget_max := (extract_budget q).2
    features := extract_features q
    brand_preferences := extract_brands q
    use_case := extract_use_case q }

/-!  ## Concrete inputs used by witnesses and counterexamples  -/

/-- The empty intent: no category, budget, features or brands. -/
def intentEmpty : ParsedIntent := {}

/-- First of the two same-fingerprint listings of the C1 scenario: it has
an image but no description. -/
def dedupImageOnly : Product :=
  { id := strOf "a", title := strOf "Cotton T-Shirt",
    image_url := some (strOf "https://img.example/a.jpg"),
    description := none, price := 20, source := strOf "StoreA" }

/-- Second listing, same fingerprint `"cottontshirt"`: it has a description
but no image. -/
def dedupDescriptionOnly : Product :=
  { id := strOf "b", title := strOf "cotton tshirt!",
    image_url := none,
    description := some (strOf "A soft cotton t-shirt"), price := 21,
    source := strOf "StoreB" }

/-- A single listing whose title matches no keyword table. -/
def plainProduct (n : ℕ) : Product :=
  { id := strOf "p" ++ (Nat.toDigits 10 n).map id, title := strOf "zzzz zzz zz",
    price := 20, affiliate_url := some (strOf "https://shop.example/item") }

/-- Six candidates none of which survives a `"jeans"` keyword filter. -/
def valveProducts : List Product :=
  [plainProduct 0, plainProduct 1, plainProduct 2, plainProduct 3, plainProduct 4,
   plainProduct 5]

/-- A listing that survives the keyword filter for a neutral query. -/
def sampleJeans : Product :=
  { id := strOf "j", title := strOf "classic denim jeans", price := 40,
    description := some (strOf "comfortable five-pocket jeans"),
    affiliate_url := some (strOf "https://shop.example/jeans") }

/-- A product dict carrying a rating of 6, outside the documented 0-5
scale. -/
def overRatedProduct : Product :=
  { id := strOf "r6", title := strOf "overrated item", price := 5, rating := some 6 }

/-- A product dict carrying a negative price. -/
def negPriceProduct : Product :=
  { id := strOf "np", title := strOf "negatively priced item", price := -15 }

/-!  # Theorems  -/

/-- If a string has no digit at all, the decimal pattern cannot match. -/
theorem findDecimal_eq_none_of_firstToken_eq_none :
    ∀ s : Str, firstToken s = none → findDecimal s = none := by
  intro s
  induction s with
  | nil => intro; rfl
  | cons c rest ih =>
    intro h
    have hc : c.isDigit = false := by
      by_contra hcd
      simp only [firstToken, Bool.not_eq_false] at h hcd
      rw [if_pos hcd] at h
      exact Option.noConfusion h
    have hrest : firstToken rest = none := by
      simpa [firstToken, hc] using h
    have hmatch : matchDecimalAt (c :: rest) = none := by
      simp [matchDecimalAt, List.takeWhile, hc]
    simp [findDecimal, hmatch, ih hrest]

/-- C10: on inputs whose normalized form (`$` and `,` removed, stripped)
contains no `\d+.\d\d` amount, the first integer token `n` is returned as
`n / 100` when `1000 ≤ n < 100000` (cents reinterpretation) and unchanged
otherwise (in particular when below 1000); if there is no digit at all the
result is `0.0`. -/
theorem parse_price_cents_reinterpretation (p : Str) :
    (∀ n : ℕ, findDecimal (cleanPrice p) = none → firstToken (cleanPrice p) = some n →
      parse_price p = if 1000 ≤ n ∧ n < 100000 then (n : ℚ) / 100 else (n : ℚ)) ∧
    (firstToken (cleanPrice p) = none → parse_price p = 0) := by
  constructor
  · intro n hdec htok
    simp only [parse_price, hdec, htok]
  · intro htok
    have hdec := findDecimal_eq_none_of_firstToken_eq_none _ htok
    simp only [parse_price, hdec, htok]

/-- Witness for C10: `"$6,491"` has no two-decimal amount, its first
integer token (after stripping `$` and `,`) is 6491, and the parsed price
is 64.91; `"no price"` parses to 0. -/
theorem parse_price_cents_witness :
    findDecimal (cleanPrice (strOf "$6,491")) = none ∧
    firstToken (cleanPrice (strOf "$6,491")) = some 6491 ∧
    parse_price (strOf "$6,491") = 6491 / 100 ∧
    parse_price (strOf "no price") = 0 := by
  refine ⟨by decide, by decide, ?_, ?_⟩
  · have h := (parse_price_cents_reinterpretation (strOf "$6,491")).1 6491 (by decide) (by decide)
    rw [h]
    norm_num
  · exact (parse_price_cents_reinterpretation (strOf "no price")).2 (by decide)

/-- `dedupAux` returns a sublist of its input: kept entries appear
unchanged and in order. -/
theorem dedupAux_sublist : ∀ (l : List Product) (seen : List Str), List.Sublist (dedupAux l seen) l := by
  intro l
  induction l with
  | nil => intro seen; simp [dedupAux]
  | cons p rest ih =>
    intro seen
    simp only [dedupAux]
    split
    · exact (ih _).cons₂ p
    · exact (ih _).cons p

/-- The fingerprints of `dedupAux`'s output are pairwise distinct and
avoid the `seen` set. -/
theorem dedupAux_nodup : ∀ (l : List Product) (seen : List Str),
    ((dedupAux l seen).map (fun p => normalize_title p.title)).Nodup ∧
    ∀ f ∈ (dedupAux l seen).map (fun p => normalize_title p.title), f ∉ seen := by
  intro l
  induction l with
  | nil => intro seen; simp [dedupAux]
  | cons p rest ih =>
    intro seen
    simp only [dedupAux]
    split
    · rename_i hcond
      obtain ⟨hne, hnotin⟩ := hcond
      obtain ⟨ihn, ihd⟩ := ih (normalize_title p.title :: seen)
      constructor
      · simp only [List.map_cons, List.nodup_cons]
        refine ⟨fun hmem => ?_, ihn⟩
        exact (ihd _ hmem) (List.mem_cons_self _ _)
      · intro f hf
        simp only [List.map_cons, List.mem_cons] at hf
        rcases hf with rfl | hf
        · exact hnotin
        · intro hseen
          exact (ihd _ hf) (List.mem_cons_of_mem _ hseen)
    · exact ih seen

/-- Every input listing with a nonempty fingerprint is represented in
`dedupAux`'s output (or was already in `seen`). -/
theorem dedupAux_covers : ∀ (l : List Product) (seen : List Str) (p : Product), p ∈ l →
    normalize_title p.title ≠ [] →
    normalize_title p.title ∈ seen ∨
    ∃ q ∈ dedupAux l seen, normalize_title q.title = normalize_title p.title := by
  intro l
  induction l with
  | nil => intro seen p hp; exact absurd hp (List.not_mem_nil p)
  | cons a rest ih =>
    intro seen p hp hne
    simp only [dedupAux]
    rcases List.mem_cons.mp hp with rfl | hmem
    · by_cases hc : normalize_title p.title ≠ [] ∧ normalize_title p.title ∉ seen
      · rw [if_pos hc]
        exact Or.inr ⟨p, List.mem_cons_self _ _, rfl⟩
      · have hseen : normalize_title p.title ∈ seen := by
          by_contra hno
          exact hc ⟨hne, hno⟩
        rw [if_neg hc]
        exact Or.inl hseen
    · split
      · rcases ih (normalize_title a.title :: seen) p hmem hne with hseen | ⟨q, hq, hfp⟩
        · rcases List.mem_cons.mp hseen with heq | hseen'
          · exact Or.inr ⟨a, List.mem_cons_self _ _, heq.symm⟩
          · exact Or.inl hseen'
        · exact Or.inr ⟨q, List.mem_cons_of_mem _ hq, hfp⟩
      · exact ih seen p hmem hne

/-- C1 (amended): deduplication is first-wins dropping, not additive
merging.  The output is a sublist of the input (so the kept entry for each
fingerprint is the first-seen listing, retained unchanged — no optional
field is filled in from a duplicate), no two output entries share a
fingerprint, and every input listing with a nonempty fingerprint is
represented by exactly such a kept entry. -/
theorem deduplicate_first_wins (products : List Product) :
    List.Sublist (deduplicate products) products ∧
    ((deduplicate products).map (fun p => normalize_title p.title)).Nodup ∧
    ∀ p ∈ products, normalize_title p.title ≠ [] →
      ∃ q ∈ deduplicate products, normalize_title q.title = normalize_title p.title := by
  refine ⟨dedupAux_sublist products [], (dedupAux_nodup products []).1, ?_⟩
  intro p hp hne
  rcases dedupAux_covers products [] p hp hne with hseen | hq
  · exact absurd hseen (List.not_mem_nil _)
  · exact hq

/-- Counterexample to C1 as stated: for the Scenario C pair (same
fingerprint `"cottontshirt"`, one listing with only an image, one with only
a description), `_deduplicate` keeps the first listing unchanged and drops
the duplicate, so the surviving entry still has no description — the
duplicate's fields are never merged in. -/
theorem deduplicate_no_merge_counterexample :
    normalize_title dedupImageOnly.title = strOf "cottontshirt" ∧
    normalize_title dedupDescriptionOnly.title = strOf "cottontshirt" ∧
    deduplicate [dedupImageOnly, dedupDescriptionOnly] = [dedupImageOnly] ∧
    dedupImageOnly.description = none := by
  refine ⟨by decide, by decide, by decide, by decide⟩

/-- Witness for C1 (amended): on the Scenario C pair the kept entry is the
first-seen listing and it represents the shared fingerprint. -/
theorem deduplicate_first_wins_witness :
    dedupImageOnly ∈ [dedupImageOnly, dedupDescriptionOnly] ∧
    normalize_title dedupImageOnly.title ≠ [] ∧
    ∃ q ∈ deduplicate [dedupImageOnly, dedupDescriptionOnly],
      normalize_title q.title = normalize_title dedupImageOnly.title := by
  refine ⟨List.mem_cons_self _ _, by decide, ?_⟩
  exact (deduplicate_first_wins [dedupImageOnly, dedupDescriptionOnly]).2.2
    dedupImageOnly (List.mem_cons_self _ _) (by decide)

/-- Counterexample to C4 as stated: with budget 100, a listing priced
exactly at the budget (cheaper, within budget) scores 60, while an
otherwise-identical listing priced 101 (over budget) scores 99 — the
cheaper in-budget listing scores strictly less. -/
theorem price_monotonicity_counterexample :
    (100 : ℚ) ≤ 100 ∧
    calculate_price_score 100 (some 100) 100 <
      calculate_price_score 101 (some 100) 100 := by
  constructor
  · norm_num
  · norm_num [calculate_price_score, min_def, max_def]

/-- C4 (amended): price monotonicity holds when both listings' prices are
positive and within the budget: for otherwise-identical listings with
0 < p₁ ≤ p₂ ≤ budget, the cheaper one's price score is at least the
costlier one's (the original claim fails when the costlier listing exceeds
the budget, where the over-budget branch restarts near 100). -/
theorem price_score_monotone_within_budget (p₁ p₂ b median_price : ℚ)
    (h0 : 0 < p₁) (h12 : p₁ ≤ p₂) (h2b : p₂ ≤ b) :
    calculate_price_score p₂ (some b) median_price ≤
      calculate_price_score p₁ (some b) median_price := by
  have h02 : 0 < p₂ := lt_of_lt_of_le h0 h12
  have hb : 0 < b := lt_of_lt_of_le h02 h2b
  have h1b : p₁ ≤ b := le_trans h12 h2b
  simp only [calculate_price_score, if_neg (not_le.mpr h0), if_neg (not_le.mpr h02),
    if_pos hb, if_neg (not_lt.mpr h2b), if_neg (not_lt.mpr h1b)]
  refine min_le_min le_rfl ?_
  have hdiv : (b - p₂) / b ≤ (b - p₁) / b := by
    gcongr
  linarith

/-- Witness for C4 (amended) at prices 20 ≤ 30 within budget 50. -/
theorem price_score_monotone_witness :
    (0 : ℚ) < 20 ∧ (20 : ℚ) ≤ 30 ∧ (30 : ℚ) ≤ 50 ∧
    calculate_price_score 30 (some 50) 100 ≤ calculate_price_score 20 (some 50) 100 :=
  ⟨by norm_num, by norm_num, by norm_num,
    price_score_monotone_within_budget 20 30 50 100 (by norm_num) (by norm_num) (by norm_num)⟩

/-- Counterexample to C8 as stated: for the raw query `"100 to 50"` the
range pattern matches with a descending pair, and `parse_intent` returns
`budget_min = 100 > 50 = budget_max` — the invariant fails. -/
theorem budget_invariant_counterexample :
    (parse_intent (strOf "100 to 50")).budget_min = some 100 ∧
    (parse_intent (strOf "100 to 50")).budget_max = some 50 ∧
    ¬ ((100 : ℚ) ≤ 50) := by
  have hr : searchRange (lowerStr (strOf "100 to 50")) = some ((100, 0), (50, 0)) := by decide
  refine ⟨?_, ?_, by norm_num⟩
  · simp only [parse_intent, extract_budget, hr, numVal]
    norm_num
  · simp only [parse_intent, extract_budget, hr, numVal]
    norm_num

/-- C8 (amended): `parse_intent` copies the matched pattern values into the
budget fields without enforcing the invariant; `budget_min ≤ budget_max`
holds exactly when the matched values are themselves ordered — i.e. when
the range pattern (if it matches) has a non-decreasing pair and, absent a
range match, the over-amount does not exceed the under-amount. -/
theorem budget_invariant_amended (query : Str) (lo hi : ℚ)
    (hmin : (parse_intent query).budget_min = some lo)
    (hmax : (parse_intent query).budget_max = some hi)
    (hrange : ∀ a b, searchRange (lowerStr query) = some (a, b) → numVal a ≤ numVal b)
    (hsep : ∀ a b, searchRange (lowerStr query) = none →
      searchKwNumber over_keywords (lowerStr query) = some a →
      searchKwNumber under_keywords (lowerStr query) = some b →
      numVal a ≤ numVal b) :
    lo ≤ hi := by
  simp only [parse_intent, extract_budget] at hmin hmax
  cases hq : searchRange (lowerStr query) with
  | some ab =>
    obtain ⟨a, b⟩ := ab
    rw [hq] at hmin hmax
    simp only [Option.some.injEq] at hmin hmax
    rw [← hmin, ← hmax]
    exact hrange a b hq
  | none =>
    rw [hq] at hmin hmax
    simp only [Option.map_eq_some'] at hmin hmax
    obtain ⟨a, ha, hav⟩ := hmin
    obtain ⟨b, hb, hbv⟩ := hmax
    rw [← hav, ← hbv]
    exact hsep a b hq ha hb

/-- Witness for C8 (amended): on `"50 to 100"` the matched range is
ascending and the returned budget fields satisfy the invariant. -/
theorem budget_invariant_witness :
    (parse_intent (strOf "50 to 100")).budget_min = some 50 ∧
    (parse_intent (strOf "50 to 100")).budget_max = some 100 ∧
    (50 : ℚ) ≤ 100 := by
  have hr : searchRange (lowerStr (strOf "50 to 100")) = some ((50, 0), (100, 0)) := by decide
  have h1 : (parse_intent (strOf "50 to 100")).budget_min = some 50 := by
    simp only [parse_intent, extract_budget, hr, numVal]
    norm_num
  have h2 : (parse_intent (strOf "50 to 100")).budget_max = some 100 := by
    simp only [parse_intent, extract_budget, hr, numVal]
    norm_num
  refine ⟨h1, h2, budget_invariant_amended (strOf "50 to 100") 50 100 h1 h2 ?_ ?_⟩
  · intro a b hab
    rw [hr] at hab
    simp only [Option.some.injEq, Prod.mk.injEq] at hab
    rw [← hab.1, ← hab.2]
    norm_num [numVal]
  · intro a b hnone
    rw [hr] at hnone
    exact absurd hnone (by simp)

/-- C5: the relevance-filter safety valve.  For an input of size N > 5, if
the keyword/gender/accessory filter would keep fewer than 5 candidates, its
effect is discarded and the output is the first `min(N, 30)` elements of
the unfiltered input, so the output size is `min(N, 30)`. -/
theorem filter_safety_valve (query : Str) (products : List Product) (intent : ParsedIntent)
    (hn : 5 < products.length)
    (hf : (products.filter (keyword_keep (lowerStr query) intent)).length < 5) :
    filter_by_keywords query products intent = products.take 30 ∧
    (filter_by_keywords query products intent).length = min products.length 30 := by
  have hne : products ≠ [] := by
    intro h
    rw [h] at hn
    simp at hn
  have heq : filter_by_keywords query products intent = products.take 30 := by
    simp only [filter_by_keywords, if_neg hne]
    rw [if_pos ⟨hf, hn⟩]
  refine ⟨heq, ?_⟩
  rw [heq, List.length_take, Nat.min_comm]

/-- Witness for C5: six candidates, none matching a `"jeans"` query; the
filter would keep 0 < 5 of 6 > 5, and the output is the whole input of
length 6 = min(6, 30). -/
theorem filter_safety_valve_witness :
    5 < valveProducts.length ∧
    (valveProducts.filter (keyword_keep (lowerStr (strOf "jeans")) intentEmpty)).length < 5 ∧
    filter_by_keywords (strOf "jeans") valveProducts intentEmpty = valveProducts.take 30 ∧
    (filter_by_keywords (strOf "jeans") valveProducts intentEmpty).length =
      min valveProducts.length 30 := by
  refine ⟨by decide, by decide, ?_⟩
  exact filter_safety_valve (strOf "jeans") valveProducts intentEmpty (by decide) (by decide)

/-- The conversion loop of `_search_vector_db` is the threshold filter: a
stored point survives exactly when its similarity score is ≥ 0.7. -/
theorem search_vector_db_eq (points : List ScoredPoint) :
    search_vector_db points =
      (points.filter (fun r => (7 : ℚ) / 10 ≤ r.score)).map
        (fun r => { r.payload with vector_score := some r.score }) := by
  induction points with
  | nil => rfl
  | cons r t ih =>
    by_cases h : (7 : ℚ) / 10 ≤ r.score
    · simp only [search_vector_db, List.filterMap_cons, List.filter_cons, if_pos h,
        decide_eq_true h, if_true, List.map_cons] at ih ⊢
      rw [ih]
    · simp only [search_vector_db, List.filterMap_cons, List.filter_cons, if_neg h,
        decide_eq_false h, Bool.false_eq_true, if_false] at ih ⊢
      rw [ih]

/-- C2: the cache-first decision rule.  Only entries with similarity ≥ 0.7
qualify; with strictly more than 3 qualifying entries the search uses the
cache as the candidate set (label `"indexed"`) for any scrape outcome;
otherwise the candidates are the keyword-filtered fresh results with the
qualifying cache hits appended after them. -/
theorem cache_first_decision_rule (points : List ScoredPoint) (vr scraped : List Product)
    (scrape_source query : Str) (intent : ParsedIntent) :
    (search_vector_db points =
      (points.filter (fun r => (7 : ℚ) / 10 ≤ r.score)).map
        (fun r => { r.payload with vector_score := some r.score })) ∧
    (3 < vr.length →
      search_products_core vr scraped scrape_source query intent = (vr, strOf "indexed")) ∧
    (vr.length ≤ 3 → filter_by_keywords query scraped intent ++ vr ≠ [] →
      (search_products_core vr scraped scrape_source query intent).1 =
        filter_by_keywords query scraped intent ++ vr) := by
  refine ⟨search_vector_db_eq points, ?_, ?_⟩
  · intro h
    simp only [search_products_core, if_pos h]
  · intro hle hne
    have hnot : ¬3 < vr.length := not_lt.mpr hle
    have hfresh : (if scraped = [] then [] else filter_by_keywords query scraped intent) =
        filter_by_keywords query scraped intent := by
      by_cases hs : scraped = []
      · rw [if_pos hs, hs]
        rfl
      · rw [if_neg hs]
    simp only [search_products_core, if_neg hnot, hfresh, if_neg hne]

/-- Witness for C2: five qualifying cache entries (> 3) short-circuit to
`"indexed"` for an arbitrary scrape outcome, and with an empty cache the
candidate set is the filtered fresh results followed by the (no) cache
hits. -/
theorem cache_first_decision_witness :
    (3 < demoEarbuds.length ∧
      search_products_core demoEarbuds [sampleJeans] (strOf "retailers") (strOf "q")
        intentEmpty = (demoEarbuds, strOf "indexed")) ∧
    (([] : List Product).length ≤ 3 ∧
      filter_by_keywords (strOf "q") [sampleJeans] intentEmpty ++ [] ≠ [] ∧
      (search_products_core [] [sampleJeans] (strOf "retailers") (strOf "q")
        intentEmpty).1 = filter_by_keywords (strOf "q") [sampleJeans] intentEmpty ++ []) := by
  refine ⟨⟨by decide, ?_⟩, ⟨by decide, by decide, ?_⟩⟩
  · exact (cache_first_decision_rule [] demoEarbuds [sampleJeans] (strOf "retailers")
      (strOf "q") intentEmpty).2.1 (by decide)
  · exact (cache_first_decision_rule [] [] [sampleJeans] (strOf "retailers")
      (strOf "q") intentEmpty).2.2 (by decide) (by decide)

/-- `score_products` never returns an empty list for a nonempty input: the
outer fallback reinstates the unfiltered products whenever `_filter_products`
removed everything. -/
theorem score_products_ne_nil (products : List Product) (intent : ParsedIntent)
    (h : products ≠ []) : score_products products intent ≠ [] := by
  intro hmap
  simp only [score_products, if_neg h] at hmap
  rw [List.map_eq_nil_iff] at hmap
  by_cases hf : filter_products products intent = []
  · rw [filteredWithFallback, if_pos hf] at hmap
    exact h hmap
  · rw [filteredWithFallback, if_neg hf] at hmap
    exact hf hmap

/-- C9: non-starvation of scoring.  For every nonempty product list the
scored output is nonempty; in particular, when the internal filter stages
would remove every product, the unfiltered input is scored instead. -/
theorem score_products_nonstarvation (products : List Product) (intent : ParsedIntent)
    (h : products ≠ []) :
    score_products products intent ≠ [] ∧
    (filter_products products intent = [] →
      (score_products products intent).map Prod.fst = products) := by
  refine ⟨score_products_ne_nil products intent h, ?_⟩
  intro hf
  simp only [score_products, if_neg h, filteredWithFallback, if_pos hf, List.map_map]
  exact List.map_id products

/-- Witness for C9 at a one-element product list. -/
theorem score_products_nonstarvation_witness :
    ([sampleJeans] : List Product) ≠ [] ∧
    score_products [sampleJeans] intentEmpty ≠ [] :=
  ⟨by simp, (score_products_nonstarvation [sampleJeans] intentEmpty (by simp)).1⟩

/-- With both the cache and the scrape empty, the candidate-set stage falls
back to the demo sample set with label `"demo"`. -/
theorem search_core_demo (scrape_source query : Str) (intent : ParsedIntent) :
    search_products_core [] [] scrape_source query intent =
      (get_demo_products intent, strOf "demo") := rfl

/-- When the candidate set is nonempty and at least one result is
requested, the ranked output of `search_products` is nonempty. -/
theorem search_result_products_ne_nil (vr scraped : List Product) (src q : Str)
    (intent : ParsedIntent) (m : ℕ) (hm : 1 ≤ m)
    (hcore : (search_products_core vr scraped src q intent).1 ≠ []) :
    (search_products_result vr scraped src q intent m).products ≠ [] := by
  have hscore := score_products_ne_nil _ intent hcore
  have hlen : 0 < (score_products (search_products_core vr scraped src q intent).1
      intent).length := List.length_pos.mpr hscore
  apply List.ne_nil_of_length_pos
  simp only [search_products_result, List.length_take, List.length_insertionSort]
  exact lt_min hm hlen

/-- Counterexample to C7 as stated: with every source empty the search
result is labelled `"demo"` but its ranked list is *not* empty — the demo
sample products are returned (Popular Product 1 and 2 for an
unconstrained intent), so the claim's "empty ranked list" fails. -/
theorem demo_fallback_counterexample :
    (search_products_result [] [] (strOf "scraped") (strOf "q") intentEmpty 5).data_source =
      strOf "demo" ∧
    (search_products_result [] [] (strOf "scraped") (strOf "q") intentEmpty 5).products ≠ [] := by
  constructor
  · rfl
  · apply search_result_products_ne_nil _ _ _ _ _ _ (by decide)
    decide

/-- C7 (amended): with empty scrape and empty cache the search returns the
static demo sample set (budget-filtered) with `data_source = "demo"`; it is
a total function of its inputs (no error), and its ranked list is nonempty
whenever the demo set is nonempty and at least one result is requested —
it is empty only when the budget filter removes every demo item. -/
theorem demo_fallback_amended (scrape_source query : Str) (intent : ParsedIntent)
    (max_results : ℕ) :
    search_products_core [] [] scrape_source query intent =
      (get_demo_products intent, strOf "demo") ∧
    (search_products_result [] [] scrape_source query intent max_results).data_source =
      strOf "demo" ∧
    (get_demo_products intent ≠ [] → 1 ≤ max_results →
      (search_products_result [] [] scrape_source query intent max_results).products ≠ []) := by
  refine ⟨search_core_demo scrape_source query intent, rfl, ?_⟩
  intro hdemo hm
  apply search_result_products_ne_nil _ _ _ _ _ _ hm
  rw [search_core_demo]
  exact hdemo

/-- Witness for C7 (amended) at the empty intent and `max_results = 5`. -/
theorem demo_fallback_amended_witness :
    get_demo_products intentEmpty ≠ [] ∧ 1 ≤ 5 ∧
    (search_products_result [] [] (strOf "scraped") (strOf "jeans") intentEmpty 5).products ≠
      [] := by
  refine ⟨by decide, by decide, ?_⟩
  exact (demo_fallback_amended (strOf "scraped") (strOf "jeans") intentEmpty 5).2.2
    (by decide) (by decide)

/-- Replacing any single task outcome by a raised exception is the same as
that task returning no listings: the collection loop skips both. -/
theorem collect_tasks_set_error (keys : List Str) (results : List TaskResult) (i : ℕ)
    (e : Unit) :
    collect_tasks (keys.zip (results.set i (Except.error e))) =
      collect_tasks (keys.zip (results.set i (Except.ok []))) := by
  induction results generalizing keys i with
  | nil => simp
  | cons r t ih =>
    cases keys with
    | nil => simp
    | cons k kt =>
      cases i with
      | zero => simp [collect_tasks]
      | succ n =>
        simp only [List.set, List.zip_cons_cons, collect_tasks, List.foldr_cons]
        have := ih kt n
        simp only [collect_tasks] at this
        rw [this]

/-- C6: source-failure isolation.  A raised exception or a non-200 response
in a single store's fetch/extract task contributes no listings; replacing
any one per-retailer task outcome by an exception changes either level's
collected result exactly as if that source had returned zero listings; and
an exception in a whole level task leaves `search_and_scrape` equal to the
same run with that level contributing nothing — the orchestration is a
total function and never propagates the failure. -/
theorem source_failure_isolation (jina html : Except Unit (List Product × List Str))
    (results : List TaskResult) (i : ℕ) (e : Unit) (extract : Str → List Product)
    (status : ℕ) (body : Str) :
    scrape_single_store extract (Except.error e) = [] ∧
    (status ≠ 200 → scrape_single_store extract (Except.ok (status, body)) = []) ∧
    (level1_jina_scrape (results.set i (Except.error e)) =
      level1_jina_scrape (results.set i (Except.ok []))) ∧
    (level2_html_scrape (results.set i (Except.error e)) =
      level2_html_scrape (results.set i (Except.ok []))) ∧
    (search_and_scrape (Except.error e) html = search_and_scrape (Except.ok ([], [])) html) ∧
    (search_and_scrape jina (Except.error e) = search_and_scrape jina (Except.ok ([], []))) := by
  refine ⟨rfl, ?_, ?_, ?_, rfl, rfl⟩
  · intro h
    simp [scrape_single_store, h]
  · exact collect_tasks_set_error _ results i e
  · exact collect_tasks_set_error _ results i e

/-- Witness for C6: a 404 response yields no listings. -/
theorem source_failure_isolation_witness :
    (404 : ℕ) ≠ 200 ∧
    scrape_single_store (fun _ => [sampleJeans]) (Except.ok (404, [])) = [] :=
  ⟨by decide,
    (source_failure_isolation (Except.ok ([], [])) (Except.ok ([], [])) [] 0 ()
      (fun _ => [sampleJeans]) 404 []).2.1 (by decide)⟩

/-- `pyRound` of an integer is that integer. -/
theorem pyRound_intCast {α : Type} [LinearOrderedField α] [FloorRing α] (n : ℤ) :
    pyRound ((n : ℤ) : α) = n := by
  simp [pyRound, Int.floor_intCast]

/-- `round(x, 1)` when `10 * x` is the integer `k` is exactly `k / 10`. -/
theorem round1_of_int {α : Type} [LinearOrderedField α] [FloorRing α] (x : α) (k : ℤ)
    (h : 10 * x = (k : α)) : round1 x = (k : α) / 10 := by
  rw [round1, h, pyRound_intCast]

/-- `pyRound` maps a value between two integers to an integer between them. -/
theorem pyRound_bounds {α : Type} [LinearOrderedField α] [FloorRing α] (a b : ℤ) (x : α)
    (ha : (a : α) ≤ x) (hb : x ≤ (b : α)) : a ≤ pyRound x ∧ pyRound x ≤ b := by
  have hfa : a ≤ ⌊x⌋ := Int.le_floor.mpr ha
  have hfb : ⌊x⌋ ≤ b := by
    have h1 := Int.floor_le_floor hb
    rwa [Int.floor_intCast] at h1
  have hstep : (1 : α) / 2 ≤ x - ⌊x⌋ → ⌊x⌋ + 1 ≤ b := by
    intro hh
    have hxb : (⌊x⌋ : α) < b := by linarith
    have : ⌊x⌋ < b := by exact_mod_cast hxb
    omega
  simp only [pyRound]
  split_ifs with h1 h2 h3
  · exact ⟨hfa, hfb⟩
  · have := hstep (by linarith)
    omega
  · exact ⟨hfa, hfb⟩
  · have := hstep (by linarith)
    omega

/-- `round(·, 1)` preserves the band [0, 100]. -/
theorem round1_bounds {α : Type} [LinearOrderedField α] [FloorRing α] (x : α)
    (h0 : 0 ≤ x) (h100 : x ≤ 100) : 0 ≤ round1 x ∧ round1 x ≤ 100 := by
  obtain ⟨hl, hu⟩ := pyRound_bounds 0 1000 (10 * x) (by push_cast; linarith) (by push_cast; linarith)
  have hlc : (0 : α) ≤ (pyRound (10 * x) : α) := by exact_mod_cast hl
  have huc : ((pyRound (10 * x) : ℤ) : α) ≤ 1000 := by exact_mod_cast hu
  constructor
  · rw [round1]
    positivity
  · rw [round1]
    rw [div_le_iff₀ (by norm_num : (0:α) < 10)]
    linarith

/-- The median of a nonempty list of positive rationals is positive. -/
theorem median_pos (values : List ℚ) (hne : values ≠ []) (hpos : ∀ x ∈ values, 0 < x) :
    0 < median values := by
  simp only [median, if_neg hne]
  have hperm := values.perm_insertionSort (· ≤ ·)
  have hmem : ∀ x ∈ values.insertionSort (· ≤ ·), 0 < x := fun x hx =>
    hpos x (hperm.subset hx)
  have hslen : 0 < (values.insertionSort (· ≤ ·)).length := by
    rw [hperm.length_eq]
    exact List.length_pos.mpr hne
  have hmidlt : (values.insertionSort (· ≤ ·)).length / 2 <
      (values.insertionSort (· ≤ ·)).length := Nat.div_lt_self hslen (by norm_num)
  have hmid1lt : (values.insertionSort (· ≤ ·)).length / 2 - 1 <
      (values.insertionSort (· ≤ ·)).length := lt_of_le_of_lt (Nat.sub_le _ _) hmidlt
  have hget : ∀ i (h : i < (values.insertionSort (· ≤ ·)).length),
      0 < (values.insertionSort (· ≤ ·)).getD i 0 := by
    intro i h
    rw [List.getD_eq_getElem _ _ h]
    exact hmem _ (List.getElem_mem h)
  split_ifs
  · have h1 := hget _ hmid1lt
    have h2 := hget _ hmidlt
    linarith
  · exact hget _ hmidlt

/-- Every product kept by `_filter_products` comes from the input list. -/
theorem filter_products_subset (products : List Product) (intent : ParsedIntent) :
    ∀ p ∈ filter_products products intent, p ∈ products := by
  intro p hp
  by_cases hne : products = []
  · rw [hne] at hp
    simp [filter_products] at hp
  simp only [filter_products, if_neg hne] at hp
  have hsub1 : ∀ q ∈ (if products.filter hasValidLink = [] then products
      else products.filter hasValidLink), q ∈ products := by
    intro q hq
    split_ifs at hq
    · exact hq
    · exact (List.mem_filter.mp hq).1
  rcases hgen : extractUserGender intent.features with _ | g
  · rw [hgen] at hp
    exact hsub1 p hp
  · rw [hgen] at hp
    exact hsub1 p (List.mem_filter.mp hp).1

/-- Members of the fallback-filtered list come from the input list. -/
theorem filteredWithFallback_subset (products : List Product) (intent : ParsedIntent) :
    ∀ p ∈ filteredWithFallback products intent, p ∈ products := by
  intro p hp
  rw [filteredWithFallback] at hp
  split_ifs at hp
  · exact hp
  · exact filter_products_subset products intent p hp

/-- The price score stays in [0, 100] for any price and budget, provided
the median price (used when no positive budget is set) is positive. -/
theorem calculate_price_score_bounds (price : ℚ) (budget_max : Option ℚ) (median_price : ℚ)
    (hm : 0 < median_price) :
    0 ≤ calculate_price_score price budget_max median_price ∧
    calculate_price_score price budget_max median_price ≤ 100 := by
  simp only [calculate_price_score]
  by_cases hp : price ≤ 0
  · rw [if_pos hp]
    norm_num
  rw [if_neg hp]
  push_neg at hp
  have hmedian :
      0 ≤ (if price ≤ median_price then
          min 100 (70 + (median_price - price) / median_price * 30)
        else max 30 (70 - (price - median_price) / median_price * 40)) ∧
      (if price ≤ median_price then
          min 100 (70 + (median_price - price) / median_price * 30)
        else max 30 (70 - (price - median_price) / median_price * 40)) ≤ 100 := by
    by_cases hpm : price ≤ median_price
    · rw [if_pos hpm]
      have hnn : 0 ≤ (median_price - price) / median_price :=
        div_nonneg (by linarith) (le_of_lt hm)
      exact ⟨le_min (by norm_num) (by linarith), min_le_left _ _⟩
    · rw [if_neg hpm]
      push_neg at hpm
      have hnn : 0 ≤ (price - median_price) / median_price :=
        div_nonneg (by linarith) (le_of_lt hm)
      refine ⟨le_trans (by norm_num) (le_max_left _ _), max_le (by norm_num) (by linarith)⟩
  cases budget_max with
  | none => exact hmedian
  | some b =>
    simp only
    by_cases hb : 0 < b
    · rw [if_pos hb]
      by_cases hbp : b < price
      · rw [if_pos hbp]
        have hnn : 0 ≤ (price - b) / b * 100 :=
          mul_nonneg (div_nonneg (by linarith) hb.le) (by norm_num)
        exact ⟨le_max_left _ _, max_le (by norm_num) (by linarith)⟩
      · rw [if_neg hbp]
        push_neg at hbp
        have hnn : 0 ≤ (b - price) / b * 40 :=
          mul_nonneg (div_nonneg (by linarith) hb.le) (by norm_num)
        exact ⟨le_min (by norm_num) (by linarith), min_le_left _ _⟩
    · rw [if_neg hb]
      exact hmedian

/-- The rating score stays in [0, 100] for ratings on the documented 0-5
scale (nonpositive ratings take the neutral branch). -/
theorem calculate_rating_score_bounds (rating : ℚ) (h5 : rating ≤ 5) :
    0 ≤ calculate_rating_score rating ∧ calculate_rating_score rating ≤ 100 := by
  simp only [calculate_rating_score]
  split_ifs with h1 h2 h3
  · norm_num
  · constructor <;> linarith
  · push_neg at h2
    constructor <;> linarith
  · push_neg at h1 h3
    exact ⟨le_max_left 0 _, max_le (by norm_num) (by linarith)⟩

/-- The review-volume score stays in [0, 100] for any counts. -/
theorem calculate_review_score_bounds (review_count max_reviews : ℕ) :
    0 ≤ calculate_review_score review_count max_reviews ∧
    calculate_review_score review_count max_reviews ≤ 100 := by
  simp only [calculate_review_score]
  by_cases h : review_count = 0
  · rw [if_pos h]
    norm_num
  rw [if_neg h]
  refine ⟨le_min (by norm_num) ?_, min_le_left _ _⟩
  have hlogc : 0 ≤ Real.logb 10 ((review_count : ℝ) + 1) := by
    apply Real.logb_nonneg (by norm_num)
    have := Nat.cast_nonneg (α := ℝ) review_count
    linarith
  have hlogm : 0 ≤ (if 0 < max_reviews then Real.logb 10 ((max_reviews : ℝ) + 1) else 1) := by
    split_ifs with hmr
    · apply Real.logb_nonneg (by norm_num)
      have := Nat.cast_nonneg (α := ℝ) max_reviews
      linarith
    · norm_num
  exact mul_nonneg (div_nonneg hlogc hlogm) (by norm_num)

/-- Bounds of the `50 + 50 × matched/total` shape used by the spec-match
score. -/
theorem base_plus_frac_bounds (m t : ℕ) (hmt : m ≤ t) (ht : 0 < t) :
    (0 : ℚ) ≤ 50 + ((m : ℚ) / (t : ℚ)) * 50 ∧ 50 + ((m : ℚ) / (t : ℚ)) * 50 ≤ 100 := by
  have h0 : (0 : ℚ) ≤ (m : ℚ) / (t : ℚ) :=
    div_nonneg (Nat.cast_nonneg m) (Nat.cast_nonneg t)
  have h1 : (m : ℚ) / (t : ℚ) ≤ 1 := by
    rw [div_le_one (by exact_mod_cast ht)]
    exact_mod_cast hmt
  constructor <;> nlinarith

/-- The spec-match score stays in [0, 100] for any product and intent. -/
theorem calculate_spec_match_score_bounds (p : Product) (intent : ParsedIntent) :
    0 ≤ calculate_spec_match_score p intent ∧ calculate_spec_match_score p intent ≤ 100 := by
  simp only [calculate_spec_match_score]
  split_ifs with h1 h2
  · norm_num
  · norm_num
  · exact base_plus_frac_bounds _ _
      (Nat.add_le_add (List.countP_le_length _) (List.countP_le_length _))
      (Nat.pos_of_ne_zero h2)

/-- All five entries of a `ScoreBreakdown` lie in [0, 100], given a
positive median price and a rating within the 0-5 scale. -/
theorem calculate_scores_bounds (p : Product) (intent : ParsedIntent) (median_price : ℚ)
    (max_reviews : ℕ) (hm : 0 < median_price) (h5 : p.rating.getD 0 ≤ 5) :
    (0 ≤ (calculate_scores p intent median_price max_reviews).price_score ∧
      (calculate_scores p intent median_price max_reviews).price_score ≤ 100) ∧
    (0 ≤ (calculate_scores p intent median_price max_reviews).rating_score ∧
      (calculate_scores p intent median_price max_reviews).rating_score ≤ 100) ∧
    (0 ≤ (calculate_scores p intent median_price max_reviews).review_volume_score ∧
      (calculate_scores p intent median_price max_reviews).review_volume_score ≤ 100) ∧
    (0 ≤ (calculate_scores p intent median_price max_reviews).spec_match_score ∧
      (calculate_scores p intent median_price max_reviews).spec_match_score ≤ 100) ∧
    (0 ≤ (calculate_scores p intent median_price max_reviews).final_score ∧
      (calculate_scores p intent median_price max_reviews).final_score ≤ 100) := by
  obtain ⟨hp0, hp1⟩ := calculate_price_score_bounds p.price intent.budget_max median_price hm
  obtain ⟨hr0, hr1⟩ := calculate_rating_score_bounds (p.rating.getD 0) h5
  obtain ⟨hv0, hv1⟩ := calculate_review_score_bounds (p.review_count.getD 0) max_reviews
  obtain ⟨hs0, hs1⟩ := calculate_spec_match_score_bounds p intent
  have cp0 : (0 : ℝ) ≤ (calculate_price_score p.price intent.budget_max median_price : ℝ) := by
    exact_mod_cast hp0
  have cp1 : (calculate_price_score p.price intent.budget_max median_price : ℝ) ≤ 100 := by
    exact_mod_cast hp1
  have cr0 : (0 : ℝ) ≤ (calculate_rating_score (p.rating.getD 0) : ℝ) := by exact_mod_cast hr0
  have cr1 : (calculate_rating_score (p.rating.getD 0) : ℝ) ≤ 100 := by exact_mod_cast hr1
  have cs0 : (0 : ℝ) ≤ (calculate_spec_match_score p intent : ℝ) := by exact_mod_cast hs0
  have cs1 : (calculate_spec_match_score p intent : ℝ) ≤ 100 := by exact_mod_cast hs1
  have hf0 : (0 : ℝ) ≤
      (calculate_price_score p.price intent.budget_max median_price : ℝ) * (30 / 100) +
        (calculate_rating_score (p.rating.getD 0) : ℝ) * (25 / 100) +
        calculate_review_score (p.review_count.getD 0) max_reviews * (15 / 100) +
        (calculate_spec_match_score p intent : ℝ) * (30 / 100) := by nlinarith
  have hf1 : (calculate_price_score p.price intent.budget_max median_price : ℝ) * (30 / 100) +
        (calculate_rating_score (p.rating.getD 0) : ℝ) * (25 / 100) +
        calculate_review_score (p.review_count.getD 0) max_reviews * (15 / 100) +
        (calculate_spec_match_score p intent : ℝ) * (30 / 100) ≤ 100 := by nlinarith
  simp only [calculate_scores]
  exact ⟨round1_bounds _ hp0 hp1, round1_bounds _ hr0 hr1, round1_bounds _ hv0 hv1,
    round1_bounds _ hs0 hs1, round1_bounds _ hf0 hf1⟩

/-- C3 (amended): for every product list whose entries have nonnegative
prices and ratings within the documented 0-5 scale (zero or missing
optional fields included), every component score and the final score
attached by the scoring engine lies in [0, 100].  (As stated over arbitrary
dicts the claim fails: a rating above 5 or a negative price in the set
pushes scores above 100, see the counterexample.) -/
theorem score_bounds_amended (products : List Product) (intent : ParsedIntent)
    (hdom : ∀ p ∈ products, 0 ≤ p.price ∧ p.rating.getD 0 ≤ 5) :
    ∀ q ∈ score_products products intent,
      (0 ≤ q.2.price_score ∧ q.2.price_score ≤ 100) ∧
      (0 ≤ q.2.rating_score ∧ q.2.rating_score ≤ 100) ∧
      (0 ≤ q.2.review_volume_score ∧ q.2.review_volume_score ≤ 100) ∧
      (0 ≤ q.2.spec_match_score ∧ q.2.spec_match_score ≤ 100) ∧
      (0 ≤ q.2.final_score ∧ q.2.final_score ≤ 100) := by
  intro q hq
  by_cases hne : products = []
  · subst hne
    simp [score_products] at hq
  simp only [score_products, if_neg hne] at hq
  obtain ⟨p, hp, rfl⟩ := List.mem_map.mp hq
  have hpin : p ∈ products := filteredWithFallback_subset products intent p hp
  have hmedpos : 0 < scoreMedianPrice (filteredWithFallback products intent) := by
    rw [scoreMedianPrice]
    split_ifs with he
    · norm_num
    · apply median_pos _ he
      intro x hx
      rw [scoreStatsPrices] at hx
      obtain ⟨hx1, hx2⟩ := List.mem_filter.mp hx
      obtain ⟨r, hr, rfl⟩ := List.mem_map.mp hx1
      have hr0 : 0 ≤ r.price := (hdom r (filteredWithFallback_subset products intent r hr)).1
      have hrne : r.price ≠ 0 := by simpa using hx2
      exact lt_of_le_of_ne hr0 (Ne.symm hrne)
  exact calculate_scores_bounds p intent _ _ hmedpos (hdom p hpin).2

/-- Witness for C3 (amended) at a one-product list with in-range fields. -/
theorem score_bounds_witness :
    (∀ p ∈ [sampleJeans], 0 ≤ p.price ∧ p.rating.getD 0 ≤ 5) ∧
    ∀ q ∈ score_products [sampleJeans] intentEmpty,
      (0 ≤ q.2.price_score ∧ q.2.price_score ≤ 100) ∧
      (0 ≤ q.2.rating_score ∧ q.2.rating_score ≤ 100) ∧
      (0 ≤ q.2.review_volume_score ∧ q.2.review_volume_score ≤ 100) ∧
      (0 ≤ q.2.spec_match_score ∧ q.2.spec_match_score ≤ 100) ∧
      (0 ≤ q.2.final_score ∧ q.2.final_score ≤ 100) :=
  ⟨by decide, score_bounds_amended [sampleJeans] intentEmpty (by decide)⟩

/-- Counterexample to C3 as stated ("for every product dict"): scoring the
pair {rating 6, price 5} and {price −15} (no filter applies, median of the
truthy prices is −5), the first product's rating score is 130 and its price
score is 150 — both outside [0, 100]. -/
theorem score_bounds_counterexample :
    (score_products [overRatedProduct, negPriceProduct] intentEmpty).map
        (fun q => q.2.rating_score) = [130, 50] ∧
    (score_products [overRatedProduct, negPriceProduct] intentEmpty).map
        (fun q => q.2.price_score) = [150, 50] ∧
    ¬ ((130 : ℚ) ≤ 100) ∧ ¬ ((150 : ℚ) ≤ 100) := by
  have hfil : filteredWithFallback [overRatedProduct, negPriceProduct] intentEmpty =
      [overRatedProduct, negPriceProduct] := by decide
  have hmr : maxReviews [overRatedProduct, negPriceProduct] = 0 := by decide
  have hps : scoreStatsPrices [overRatedProduct, negPriceProduct] = [5, -15] := by decide
  have hsort : List.insertionSort (· ≤ ·) [(5 : ℚ), -15] = [-15, 5] := by decide
  have hmed : scoreMedianPrice [overRatedProduct, negPriceProduct] = -5 := by
    rw [scoreMedianPrice, hps, if_neg (by decide)]
    simp only [median, if_neg (show ¬([(5 : ℚ), -15] = []) by decide), hsort]
    norm_num [List.getD]
  have hsp : score_products [overRatedProduct, negPriceProduct] intentEmpty =
      [(overRatedProduct, calculate_scores overRatedProduct intentEmpty (-5) 0),
       (negPriceProduct, calculate_scores negPriceProduct intentEmpty (-5) 0)] := by
    simp only [score_products, if_neg (show ¬([overRatedProduct, negPriceProduct] = [])
      by decide), hfil, hmr, hmed, List.map_cons, List.map_nil]
  have hr1 : (calculate_scores overRatedProduct intentEmpty (-5) 0).rating_score = 130 := by
    simp only [calculate_scores]
    have h6 : calculate_rating_score (overRatedProduct.rating.getD 0) = 130 := by
      norm_num [overRatedProduct, calculate_rating_score]
    rw [h6, round1_of_int (130 : ℚ) 1300 (by norm_num)]
    norm_num
  have hr2 : (calculate_scores negPriceProduct intentEmpty (-5) 0).rating_score = 50 := by
    simp only [calculate_scores]
    have h0 : calculate_rating_score (negPriceProduct.rating.getD 0) = 50 := by
      norm_num [negPriceProduct, calculate_rating_score]
    rw [h0, round1_of_int (50 : ℚ) 500 (by norm_num)]
    norm_num
  have hp1 : (calculate_scores overRatedProduct intentEmpty (-5) 0).price_score = 150 := by
    simp only [calculate_scores]
    have h150 : calculate_price_score overRatedProduct.price intentEmpty.budget_max (-5) =
        150 := by
      norm_num [overRatedProduct, intentEmpty, calculate_price_score, max_def]
    rw [h150, round1_of_int (150 : ℚ) 1500 (by norm_num)]
    norm_num
  have hp2 : (calculate_scores negPriceProduct intentEmpty (-5) 0).price_score = 50 := by
    simp only [calculate_scores]
    have h50 : calculate_price_score negPriceProduct.price intentEmpty.budget_max (-5) =
        50 := by
      norm_num [negPriceProduct, intentEmpty, calculate_price_score]
    rw [h50, round1_of_int (50 : ℚ) 500 (by norm_num)]
    norm_num
  refine ⟨?_, ?_, by norm_num, by norm_num⟩
  · rw [hsp]
    simp only [List.map_cons, List.map_nil, hr1, hr2]
  · rw [hsp]
    simp only [List.map_cons, List.map_nil, hp1, hp2]

end FluidOrbit
